import Mathlib

/-
Verification of the path-generation core of `boxes/generators/paperbox.py`
(class `PaperBox`).

Shallow embedding conventions:

* A path fragment is a `List Prim` over real numbers.  The Python code passes
  alternating length / angle / arc-tuple values to `polyline`; here each value
  is tagged explicitly: a length becomes `Prim.line`, a plain angle becomes
  `Prim.turn`, an `(angle, radius)` pair becomes `Prim.arc`.
* Turtle semantics (`TState`, `step`, `run`): position in the plane, heading in
  degrees, positive angles turning counter-clockwise.  `Prim.line l` moves the
  cursor forward by `l`; `Prim.turn a` adds `a` to the heading; `Prim.arc a r`
  moves along a circular arc of radius `r` sweeping `a` degrees (the chord
  displacement of the drawing backend's `corner`).
* Machine floats are modelled by `ℝ`; `math.cos`, `math.sin`, `math.tan` and
  `math.degrees` become `Real.cos`, `Real.sin`, `Real.tan` and `degOf`.
* `crease` draws inside a saved graphics context (`with self.saved_context()`)
  after a `moveTo`, on a separate etching layer: it does not advance the main
  cursor, so its stroke is not part of the cursor path below; its effect on the
  drawing state is modelled separately (`creaseDraw`).
* `mark` and `lid` are Python procedures that draw via `self.polyline` and
  return `None`; `widebox` nevertheless uses their return values as list
  operands.  The dynamic (ill-typed) evaluation is modelled with `PVal`,
  `pyAdd` and `chainGo`, reproducing Python's left-to-right evaluation and its
  `TypeError` on `None + list`.
-/

noncomputable section

/-- A single primitive of a path fragment. -/
inductive Prim where
  | line (len : ℝ)
  | turn (ang : ℝ)
  | arc (ang radius : ℝ)


/-- The parameters of a `PaperBox` instance: the three box dimensions
`x`, `y`, `h` and the auxiliary arguments added in `__init__`, plus the
externally supplied `thickness` and `burn`. -/
structure Params where
  x : ℝ
  y : ℝ
  h : ℝ
  lid_heigth : ℝ
  lid_radius : ℝ
  lid_sides : ℝ
  margin : ℝ
  mark_length : ℝ
  tab_angle_rad : ℝ
  finger_hole_diameter : ℝ
  thickness : ℝ
  burn : ℝ

/-- `math.degrees`: radians to degrees. -/
def degOf (t : ℝ) : ℝ := t * 180 / Real.pi

/-- Cosine of a heading given in degrees. -/
def dirx (a : ℝ) : ℝ := Real.cos (a * Real.pi / 180)

/-- Sine of a heading given in degrees. -/
def diry (a : ℝ) : ℝ := Real.sin (a * Real.pi / 180)

/-- Turtle state: cursor position and heading (degrees). -/
@[ext] structure TState where
  px : ℝ
  py : ℝ
  hdg : ℝ


/-- One turtle step.  For an arc sweeping `a` degrees with radius `r` the
displacement in the local frame is `(r sin |a|, ± r (1 - cos a))`, the lateral
sign following the turning sense. -/
def step (s : TState) : Prim → TState
  | .line l => ⟨s.px + l * dirx s.hdg, s.py + l * diry s.hdg, s.hdg⟩
  | .turn a => ⟨s.px, s.py, s.hdg + a⟩
  | .arc a r =>
      let fwd := r * diry |a|
      let lat := if 0 ≤ a then r * (1 - dirx a) else -(r * (1 - dirx a))
      ⟨s.px + fwd * dirx s.hdg - lat * diry s.hdg,
       s.py + fwd * diry s.hdg + lat * dirx s.hdg,
       s.hdg + a⟩

/-- Fold the turtle over a fragment. -/
def run (s : TState) (ps : List Prim) : TState := ps.foldl step s

/-- The signed turning contributed by one primitive. -/
def turnAngle : Prim → ℝ
  | .line _ => 0
  | .turn a => a
  | .arc a _ => a

/-- Accumulated turning of a fragment (degrees). -/
def netRot (ps : List Prim) : ℝ := (ps.map turnAngle).sum

/-- The `line` lengths of a fragment, in order. -/
def lineLengths (ps : List Prim) : List ℝ :=
  ps.filterMap fun p => match p with
    | .line l => some l
    | _ => none

/-- The spec's closure invariant for an assembled path started at the origin
with heading 0: zero net translation and net rotation an integer multiple
of 360 degrees. -/
def pathCloses (ps : List Prim) : Prop :=
  ((run ⟨0, 0, 0⟩ ps).px = 0 ∧ (run ⟨0, 0, 0⟩ ps).py = 0) ∧
    ∃ k : ℤ, netRot ps = 360 * k

theorem run_append (s : TState) (a b : List Prim) :
    run s (a ++ b) = run (run s a) b := List.foldl_append ..

theorem run_nil (s : TState) : run s [] = s := rfl

/-! ### Sub-generators (from `paperbox.py`) -/

/-- `mark` (lines 228-239): the fragment passed to `self.polyline`,
`[0, -90, self.mark_length, 180, self.mark_length, -90]`.  The function draws
this unconditionally (there is no test on the length) and returns `None`. -/
def markFrag (ml : ℝ) : List Prim :=
  [.line 0, .turn (-90), .line ml, .turn 180, .line ml, .turn (-90)]

/-- `lid` (lines 213-220): fragment passed to `self.polyline`; the function
draws it and returns `None`. -/
def lidFrag (lid_heigth lid_radius width : ℝ) : List Prim :=
  [.line (lid_heigth - lid_radius), .arc 90 lid_radius,
   .line (width - 2 * lid_radius), .arc 90 lid_radius,
   .line (lid_heigth - lid_radius)]

/-- `lid_cut` (lines 241-254): the two `polyline` fragments, concatenated in
stroke order.  (Between them, when `reverse` is false, `crease` draws a
separate saved-context stroke that does not advance the cursor.) -/
def lid_cut (thickness length : ℝ) (reverse : Bool) : List Prim :=
  [.line 0, .turn 90, .line (length + if reverse then 0 else thickness)] ++
  [.line 0, .turn (-180), .line (length + if reverse then thickness else 0), .turn 90]

/-- `side_with_finger_hole` (lines 256-268). -/
def side_with_finger_hole (width finger_hole_diameter : ℝ) : List Prim :=
  [.line ((width - finger_hole_diameter) / 2), .turn 90,
   .line 0, .arc (-180) (finger_hole_diameter / 2), .line 0, .turn 90,
   .line ((width - finger_hole_diameter) / 2), .turn 0]

/-- `tab_description` (lines 270-283); `tab` is `self.tab_angle_rad`. -/
def tab_description (tab height width : ℝ) : List Prim :=
  [.line 0, .turn (degOf tab - 90),
   .line (height / Real.cos tab), .turn (90 - degOf tab),
   .line (width - 2 * height * Real.tan tab), .turn (90 - degOf tab),
   .line (height / Real.cos tab), .turn (degOf tab - 90)]

/-- The local variable `path` of `ear_description` (lines 285-304). -/
def ear_path (p : Params) (length lid_cut_length : ℝ) : List Prim :=
  let ear_depth := max lid_cut_length p.lid_heigth
  let radius := min p.lid_radius (ear_depth - lid_cut_length)
  let start_margin := p.thickness
  let end_margin := 2 * p.burn
  [.line start_margin, .turn (-90), .line lid_cut_length, .turn 90,
   .line 0, .arc (-90) radius, .line 0, .turn 90,
   .line (length - radius - start_margin - end_margin), .turn 90,
   .line ear_depth, .turn (-90), .line end_margin]

/-- `ear_description` (line 306): `(list(reversed(path)) if reverse else path)
+ [0]`; the appended `0` lands on an angle position of the surrounding
`polyline` call at both call sites, hence `Prim.turn 0`. -/
def ear_description (p : Params) (length lid_cut_length : ℝ) (reverse : Bool) :
    List Prim :=
  (if reverse then (ear_path p length lid_cut_length).reverse
   else ear_path p length lid_cut_length) ++ [.turn 0]

/-! ### The tuckbox assembler (lines 105-168)

`tuckbox` draws by successive `self.polyline` calls; `self.mark()` also draws
through `self.polyline` on the same cursor, while `self.crease(...)` strokes
inside a saved context after a `moveTo` and leaves the cursor untouched.  The
cursor path is therefore the concatenation, in program order, of the `polyline`
fragments of `tuckbox` itself, of `mark`, of `lid_cut` and of `lid`. -/

/-- `lid_cut_length = min(10, length / 2, width / 5)` (line 106). -/
def lclOf (p : Params) : ℝ := min 10 (min (p.y / 2) (p.x / 5))

/-- Cursor path of `tuckbox` up to (and including) the `[0, 90]` prefix of the
`polyline` call that carries the outer tab (lines 105-156). -/
def tuckPre (p : Params) : List Prim :=
  [.line p.h, .turn 0] ++
  markFrag p.mark_length ++
  ([.line 0, .turn 90] ++ ear_description p p.y (lclOf p) false ++
    [.line 0, .turn (-90), .line p.y, .turn 0]) ++
  lid_cut p.thickness (lclOf p) false ++
  lidFrag p.lid_heigth p.lid_radius (p.x - 2 * p.thickness) ++
  [.line 0, .turn 0] ++
  lid_cut p.thickness (lclOf p) true ++
  ([.line p.y, .turn (-90)] ++ ear_description p p.y (lclOf p) true) ++
  [.line 0, .turn 90] ++
  [.line 0, .turn (-90)] ++
  markFrag p.mark_length ++
  side_with_finger_hole p.x p.finger_hole_diameter ++
  markFrag p.mark_length ++
  [.line 0, .turn 90]

/-- Cursor path of `tuckbox` after the outer tab (lines 159-168). -/
def tuckPost (p : Params) : List Prim :=
  [.line 0, .turn 90] ++
  markFrag p.mark_length ++
  [.line p.x]

/-- The full cursor path of `tuckbox(width, length, height)` called by `render`
as `self.tuckbox(self.x, self.y, self.h)`; the outer tab is
`tab_description(length - margin - thickness, height)` (line 157). -/
def tuckbox (p : Params) : List Prim :=
  tuckPre p ++
  tab_description p.tab_angle_rad (p.y - p.margin - p.thickness) p.h ++
  tuckPost p

/-! ### The widebox assembler (lines 170-211), dynamically

`widebox` builds `half_side` as a `+`-chain whose first operand is
`self.mark()`.  In this file's source, `mark` draws and returns `None`
(there is no `return` statement), so the very first concatenation
`None + [0, 90]` raises `TypeError`; Python evaluates `+`-chains left to
right, so no later operand (in particular no further `mark()` and not
`self.lid(width)`) is ever evaluated. -/

/-- A Python value appearing in `widebox`: `None` or a list of primitives. -/
inductive PVal where
  | vNone
  | vList (ps : List Prim)

/-- The Python exception kind raised by `None + list`. -/
inductive PyErr where
  | typeError

instance : DecidableEq PyErr := fun a b => by
  cases a; cases b; exact isTrue rfl

/-- Python `+` on the values occurring in `widebox`: list concatenation, and
`TypeError` whenever an operand is `None`. -/
def pyAdd : PVal → PVal → Except PyErr PVal
  | .vList a, .vList b => .ok (.vList (a ++ b))
  | _, _ => .error .typeError

/-- One operand of a `+`-chain: the primitives it strokes when it is
evaluated, and its value. -/
abbrev Operand := List Prim × PVal

/-- Evaluate `acc + op₁ + op₂ + ...` left to right: each operand is evaluated
(emitting its strokes) just before the `+` that consumes it; an error aborts
the chain, leaving the remaining operands unevaluated. -/
def chainGo : PVal → List Operand → List Prim × Except PyErr PVal
  | acc, [] => ([], .ok acc)
  | acc, (em, v) :: more =>
      match pyAdd acc v with
      | .error e => (em, .error e)
      | .ok acc' => ((em ++ (chainGo acc' more).1), (chainGo acc' more).2)

/-- `self.mark()` as an operand: strokes `markFrag` and evaluates to `None`. -/
def markProc (p : Params) : Operand := (markFrag p.mark_length, .vNone)

/-- `self.lid(w)` as an operand: strokes `lidFrag` and evaluates to `None`. -/
def lidProc (p : Params) (w : ℝ) : Operand :=
  (lidFrag p.lid_heigth p.lid_radius w, .vNone)

/-- A pure list operand (a literal or a call returning a list). -/
def pureList (ps : List Prim) : Operand := ([], .vList ps)

/-- The evaluation of the `half_side` expression of `widebox` (lines 171-205):
strokes emitted, and the resulting value or exception. -/
def half_sideRun (p : Params) : List Prim × Except PyErr PVal :=
  let first := markProc p
  let rest : List Operand :=
    [pureList [.line 0, .turn 90],
     pureList (tab_description p.tab_angle_rad (p.y / 2 - p.margin) p.h),
     pureList [.line 0, .turn (-90), .line p.h, .turn 0],
     markProc p,
     pureList [.line 0, .turn 90],
     pureList (tab_description p.tab_angle_rad p.lid_sides p.y),
     pureList [.line 0, .turn 90],
     markProc p,
     pureList [.line p.h, .turn (-90)],
     pureList (tab_description p.tab_angle_rad (p.y / 2 - p.margin) p.h),
     pureList [.line p.y, .turn 0],
     markProc p]
  ((first.1 ++ (chainGo first.2 rest).1), (chainGo first.2 rest).2)

/-- Python `list(reversed(v))`. -/
def pyReversed : PVal → Except PyErr PVal
  | .vList l => .ok (.vList l.reverse)
  | .vNone => .error .typeError

/-- The evaluation of `widebox(width, length, height)` (lines 170-211): the
`half_side` assignment, then — were it ever reached — the return expression
`side_with_finger_hole(...) + half_side + lid(width) + list(reversed(half_side))`. -/
def wideboxRun (p : Params) : List Prim × Except PyErr PVal :=
  match half_sideRun p with
  | (em, .error e) => (em, .error e)
  | (em, .ok hs) =>
      let first := pureList (side_with_finger_hole p.x p.finger_hole_diameter)
      match pyReversed hs with
      | .error e => (em ++ first.1 ++ (chainGo first.2 [(([] : List Prim), hs), lidProc p p.x]).1, .error e)
      | .ok rv =>
          let r := chainGo first.2 [(([] : List Prim), hs), lidProc p p.x, (([] : List Prim), rv)]
          (em ++ first.1 ++ r.1, r.2)

/-! ### Design selection and `render` (lines 95-102) -/

/-- The three values of the `--design` argument. -/
inductive Design where
  | automatic
  | widebox
  | tuckbox
deriving DecidableEq

/-- Lines 96-97: `if self.design == "automatic": self.design = "tuckbox" if
self.h > self.y else "widebox"`.  The field is overwritten once, before any
generation. -/
def resolveDesign (design : Design) (h y : ℝ) : Design :=
  if design = .automatic then (if h > y then .tuckbox else .widebox) else design

/-- `render` (lines 95-102): resolve the design once, then dispatch.  A
successful `tuckbox` call strokes its cursor path and returns normally; a
`widebox` call strokes whatever `wideboxRun` emitted and propagates its
exception, if any.  (Even a successful `widebox` would draw nothing further:
`render` discards its return value.) -/
def renderRun (p : Params) (design : Design) : List Prim × Option PyErr :=
  match resolveDesign design p.h p.y with
  | .tuckbox => (tuckbox p, none)
  | .widebox =>
      ((wideboxRun p).1,
        match (wideboxRun p).2 with
        | .ok _ => none
        | .error e => some e)
  | .automatic => ([], none)

/-! ### Drawing-state model for `mark` and `crease`

`set_source_color` overwrites the current stroke color.  `crease` (lines
221-226) wraps its color change in `with self.saved_context()`, which restores
the previous drawing state on exit; `mark` (lines 228-239) calls
`set_source_color(Color.BLACK)` with no such scope. -/

/-- The stroke colors the generator uses, plus any other ambient color. -/
inductive SColor where
  | black
  | etching
  | other
deriving DecidableEq

/-- The part of the drawing context state that the generator mutates. -/
structure DrawState where
  color : SColor
deriving DecidableEq

/-- `self.set_source_color(c)`. -/
def set_source_color (c : SColor) (s : DrawState) : DrawState := { s with color := c }

/-- `mark` as a drawing-state transformer: it sets the source color to BLACK
and strokes its fragment in the resulting ambient color; the new state is the
function's final state — nothing is restored. -/
def markDraw (ml : ℝ) (s : DrawState) : DrawState × (SColor × List Prim) :=
  let s' := set_source_color .black s
  (s', (s'.color, markFrag ml))

/-- `crease` as a drawing-state transformer: inside `saved_context` it sets the
source color to ETCHING and strokes an edge of `length - 2`; leaving the
context restores the caller's state. -/
def creaseDraw (length : ℝ) (s : DrawState) : DrawState × (SColor × ℝ) :=
  let inner := set_source_color .etching s
  (s, (inner.color, length - 2))

/-! ### Heading-direction lemmas -/

theorem dirx_zero : dirx 0 = 1 := by
  simp [dirx]

theorem diry_zero : diry 0 = 0 := by
  simp [diry]

theorem dirx_90 : dirx 90 = 0 := by
  have h : (90 : ℝ) * Real.pi / 180 = Real.pi / 2 := by ring
  rw [dirx, h, Real.cos_pi_div_two]

theorem diry_90 : diry 90 = 1 := by
  have h : (90 : ℝ) * Real.pi / 180 = Real.pi / 2 := by ring
  rw [diry, h, Real.sin_pi_div_two]

theorem dirx_180 : dirx 180 = -1 := by
  have h : (180 : ℝ) * Real.pi / 180 = Real.pi := by ring
  rw [dirx, h, Real.cos_pi]

theorem diry_180 : diry 180 = 0 := by
  have h : (180 : ℝ) * Real.pi / 180 = Real.pi := by ring
  rw [diry, h, Real.sin_pi]

theorem dirx_neg (a : ℝ) : dirx (-a) = dirx a := by
  have h : (-a) * Real.pi / 180 = -(a * Real.pi / 180) := by ring
  rw [dirx, h, Real.cos_neg]; rfl

theorem diry_neg (a : ℝ) : diry (-a) = -diry a := by
  have h : (-a) * Real.pi / 180 = -(a * Real.pi / 180) := by ring
  rw [diry, h, Real.sin_neg]; rfl

theorem dirx_add (a b : ℝ) : dirx (a + b) = dirx a * dirx b - diry a * diry b := by
  have h : (a + b) * Real.pi / 180 = a * Real.pi / 180 + b * Real.pi / 180 := by ring
  rw [dirx, h, Real.cos_add]; rfl

theorem diry_add (a b : ℝ) : diry (a + b) = diry a * dirx b + dirx a * diry b := by
  have h : (a + b) * Real.pi / 180 = a * Real.pi / 180 + b * Real.pi / 180 := by ring
  rw [diry, h, Real.sin_add]; rfl

theorem dirx_sub (a b : ℝ) : dirx (a - b) = dirx a * dirx b + diry a * diry b := by
  have h : (a - b) * Real.pi / 180 = a * Real.pi / 180 - b * Real.pi / 180 := by ring
  rw [dirx, h, Real.cos_sub]; rfl

theorem diry_sub (a b : ℝ) : diry (a - b) = diry a * dirx b - dirx a * diry b := by
  have h : (a - b) * Real.pi / 180 = a * Real.pi / 180 - b * Real.pi / 180 := by ring
  rw [diry, h, Real.sin_sub]; rfl

theorem dirx_degOf (t : ℝ) : dirx (degOf t) = Real.cos t := by
  have h : degOf t * Real.pi / 180 = t := by
    rw [degOf]; field_simp
  rw [dirx, h]

theorem diry_degOf (t : ℝ) : diry (degOf t) = Real.sin t := by
  have h : degOf t * Real.pi / 180 = t := by
    rw [degOf]; field_simp
  rw [diry, h]

/-! ### Fragment displacement lemmas -/

theorem run_markFrag (s : TState) (ml : ℝ) : run s (markFrag ml) = s := by
  simp only [markFrag, run, List.foldl, step]
  ext <;>
    simp only [dirx_add, diry_add, dirx_neg, diry_neg, dirx_90, diry_90,
      dirx_180, diry_180] <;> ring

theorem run_lid_cut_false (s : TState) (t l : ℝ) :
    run s (lid_cut t l false) = ⟨s.px - t * diry s.hdg, s.py + t * dirx s.hdg, s.hdg⟩ := by
  simp only [lid_cut, run, List.foldl, step, List.append_eq, List.cons_append,
    List.nil_append, Bool.false_eq_true, if_false]
  ext <;>
    simp only [dirx_add, diry_add, dirx_neg, diry_neg, dirx_90, diry_90,
      dirx_180, diry_180] <;> ring

theorem run_lid_cut_true (s : TState) (t l : ℝ) :
    run s (lid_cut t l true) = ⟨s.px + t * diry s.hdg, s.py - t * dirx s.hdg, s.hdg⟩ := by
  simp only [lid_cut, run, List.foldl, step, List.append_eq, List.cons_append,
    List.nil_append, if_true]
  ext <;>
    simp only [dirx_add, diry_add, dirx_neg, diry_neg, dirx_90, diry_90,
      dirx_180, diry_180] <;> ring

theorem run_tab (s : TState) (t H W : ℝ) (hc : Real.cos t ≠ 0) :
    run s (tab_description t H W) =
      ⟨s.px + W * dirx s.hdg, s.py + W * diry s.hdg, s.hdg⟩ := by
  simp only [tab_description, run, List.foldl, step]
  ext <;>
    simp only [dirx_add, diry_add, dirx_sub, diry_sub, dirx_degOf, diry_degOf,
      dirx_neg, diry_neg, dirx_90, diry_90, Real.tan_eq_sin_div_cos]
  · field_simp
    linear_combination
      (Real.cos t * dirx s.hdg * W - Real.cos t * H * diry s.hdg -
        H * dirx s.hdg * Real.sin t) * Real.sin_sq_add_cos_sq t
  · field_simp
    linear_combination
      (Real.cos t * H * dirx s.hdg + Real.cos t * diry s.hdg * W -
        H * diry s.hdg * Real.sin t) * Real.sin_sq_add_cos_sq t
  · ring

theorem dirx_270 : dirx 270 = 0 := by
  have h : (270 : ℝ) * Real.pi / 180 = Real.pi + Real.pi / 2 := by ring
  rw [dirx, h, Real.cos_add, Real.cos_pi_div_two, Real.sin_pi, Real.cos_pi,
    Real.sin_pi_div_two]
  ring

theorem diry_270 : diry 270 = -1 := by
  have h : (270 : ℝ) * Real.pi / 180 = Real.pi + Real.pi / 2 := by ring
  rw [diry, h, Real.sin_add, Real.cos_pi_div_two, Real.sin_pi, Real.cos_pi,
    Real.sin_pi_div_two]
  ring

theorem dirx_360 : dirx 360 = 1 := by
  have h : (360 : ℝ) * Real.pi / 180 = 2 * Real.pi := by ring
  rw [dirx, h, Real.cos_two_pi]

theorem diry_360 : diry 360 = 0 := by
  have h : (360 : ℝ) * Real.pi / 180 = 2 * Real.pi := by ring
  rw [diry, h, Real.sin_two_pi]

theorem abs_neg90 : |(-90 : ℝ)| = 90 := by
  rw [abs_of_nonpos (by norm_num)]
  norm_num

theorem abs_neg180 : |(-180 : ℝ)| = 180 := by
  rw [abs_of_nonpos (by norm_num)]
  norm_num

theorem abs_pos90 : |(90 : ℝ)| = 90 := by
  rw [abs_of_nonneg (by norm_num)]

set_option maxHeartbeats 2000000 in
set_option maxRecDepth 8000 in
/-- Net cursor displacement of `tuckbox` up to the outer tab: the turtle,
started at the origin heading east, stands at `(height, 2 length + 2 width)`
heading west. -/
theorem tuckPre_run (p : Params) :
    run ⟨0, 0, 0⟩ (tuckPre p) = ⟨p.h, 2 * p.y + 2 * p.x, 180⟩ := by
  norm_num [tuckPre, markFrag, ear_description, ear_path, lid_cut, lidFrag,
    side_with_finger_hole, run, List.foldl, step, List.reverse_cons,
    abs_neg90, abs_neg180, abs_pos90,
    dirx_zero, diry_zero, dirx_90, diry_90, dirx_180, diry_180,
    dirx_270, diry_270, dirx_360, diry_360, dirx_neg, diry_neg]
  constructor <;> ring

/-- The full tuckbox cursor path ends at `(0, 2 length + width)` with heading
270 degrees: the emitted outline is open — the whole left edge of the layout,
of length `2 length + width`, is never drawn. -/
theorem tuckbox_run (p : Params) (hc : Real.cos p.tab_angle_rad ≠ 0) :
    run ⟨0, 0, 0⟩ (tuckbox p) = ⟨0, 2 * p.y + p.x, 270⟩ := by
  rw [tuckbox, run_append, run_append, tuckPre_run, run_tab _ _ _ _ hc]
  norm_num [tuckPost, markFrag, run, List.foldl, step,
    dirx_zero, diry_zero, dirx_90, diry_90, dirx_180, diry_180,
    dirx_270, diry_270, dirx_360, diry_360, dirx_neg, diry_neg]
  ring

/-- The accumulated turning of the tuckbox cursor path is 270 degrees, for
every parameter assignment. -/
theorem netRot_tuckbox (p : Params) : netRot (tuckbox p) = 270 := by
  norm_num [tuckbox, tuckPre, tuckPost, markFrag, ear_description, ear_path,
    lid_cut, lidFrag, side_with_finger_hole, tab_description, lclOf,
    netRot, turnAngle, List.reverse_cons]

/-! ### Valid parameter sets and a concrete instance -/

/-- Validity of a parameter set in the sense of the claim: the three box
dimensions are positive and every derived segment length of the tuckbox
layout is positive (the structural zero-length anchor lines that the spec
itself prescribes are exempt). -/
def validParams (p : Params) : Prop :=
  0 < p.x ∧ 0 < p.y ∧ 0 < p.h ∧
  0 < p.thickness ∧ 0 < p.burn ∧ 0 ≤ p.margin ∧ 0 < p.mark_length ∧
  0 < p.lid_radius ∧ p.lid_radius < p.lid_heigth ∧ 0 < p.lid_sides ∧
  0 < Real.cos p.tab_angle_rad ∧
  0 < p.finger_hole_diameter ∧ p.finger_hole_diameter ≤ p.x ∧
  0 < p.y - min p.lid_radius (max (lclOf p) p.lid_heigth - lclOf p) -
      p.thickness - 2 * p.burn ∧
  0 < p.x - 2 * p.thickness - 2 * p.lid_radius ∧
  0 < p.y - p.margin - p.thickness ∧
  0 < p.h - 2 * (p.y - p.margin - p.thickness) * Real.tan p.tab_angle_rad

/-- A concrete parameter assignment: `x = 100`, `y = 150`, `h = 30`, the
generator's default auxiliary values (`lid_heigth = 15`, `lid_radius = 7`,
`lid_sides = 20`, `margin = 0`, `mark_length = 1.5`,
`finger_hole_diameter = 15`), tab angle `0`, `thickness = 1`, `burn = 1/2`. -/
def p0 : Params :=
  ⟨100, 150, 30, 15, 7, 20, 0, 3 / 2, 0, 15, 1, 1 / 2⟩

theorem validParams_p0 : validParams p0 := by
  norm_num [validParams, lclOf, p0, min_def, max_def, Real.cos_zero, Real.tan_zero]

/-! ### Evaluation of `widebox` -/

/-- Evaluating `widebox` emits exactly the first `mark()` fragment and then
raises `TypeError` on `None + [0, 90]`; nothing else is ever evaluated. -/
theorem wideboxRun_eq (p : Params) :
    wideboxRun p = (markFrag p.mark_length, .error .typeError) := by
  simp [wideboxRun, half_sideRun, chainGo, markProc, pureList, pyAdd]

/-! ### Claim C1 -/

/-- C1 (counterexample): at the concrete valid parameter set `p0` the
assembled tuckbox cursor path does not close — its net rotation is 270
degrees, which is no integer multiple of 360 — refuting the claim that every
valid parameter set yields a closed assembled path. -/
theorem claim1_counterexample : validParams p0 ∧ ¬ pathCloses (tuckbox p0) := by
  refine ⟨validParams_p0, ?_⟩
  rintro ⟨-, k, hk⟩
  rw [netRot_tuckbox] at hk
  have h2 : ((270 : ℤ) : ℝ) = ((360 * k : ℤ) : ℝ) := by push_cast; linarith
  have h3 : (270 : ℤ) = 360 * k := by exact_mod_cast h2
  omega

/-- C1 (amended): for every parameter set whose tab angle has nonzero cosine,
the tuckbox cursor path started at the origin ends at `(0, 2*length + width)`
with accumulated turning 270 degrees — zero net translation fails and the net
rotation is not a multiple of 360 — and the widebox assembler raises
`TypeError` after stroking one mark fragment, producing no assembled path at
all. -/
theorem claim1_amended (p : Params) (hc : Real.cos p.tab_angle_rad ≠ 0) :
    run ⟨0, 0, 0⟩ (tuckbox p) = ⟨0, 2 * p.y + p.x, 270⟩ ∧
      netRot (tuckbox p) = 270 ∧
      wideboxRun p = (markFrag p.mark_length, .error .typeError) :=
  ⟨tuckbox_run p hc, netRot_tuckbox p, wideboxRun_eq p⟩

/-- C1 (witness): the amended statement instantiated at `p0`. -/
theorem claim1_witness :
    Real.cos p0.tab_angle_rad ≠ 0 ∧
      (run ⟨0, 0, 0⟩ (tuckbox p0) = ⟨0, 2 * p0.y + p0.x, 270⟩ ∧
        netRot (tuckbox p0) = 270 ∧
        wideboxRun p0 = (markFrag p0.mark_length, .error .typeError)) :=
  ⟨by norm_num [p0], claim1_amended p0 (by norm_num [p0])⟩

/-! ### Claim C2 -/

/-- C2 (counterexample): at `p0`, `widebox` does raise `TypeError`, but not
before emitting primitives: the first `mark()` call has already stroked its
six-primitive fragment, so the emission trace is nonempty, refuting "raises a
TypeError before emitting any primitives ... and produces no output". -/
theorem claim2_counterexample :
    (wideboxRun p0).1 ≠ ([] : List Prim) ∧
      (wideboxRun p0).2 = .error .typeError := by
  constructor
  · rw [wideboxRun_eq]
    simp [markFrag]
  · rw [wideboxRun_eq]

/-- C2 (amended): for every parameter set, `widebox` raises `TypeError` when
it concatenates the `None` returned by `mark()` with `[0, 90]`, but only after
that first `mark()` call has stroked its six primitives: the emission trace is
exactly one mark fragment.  `render` with design `widebox` — and with design
`automatic` whenever `height <= length` — therefore always fails, having
emitted exactly that single mark fragment. -/
theorem claim2_amended (p : Params) :
    wideboxRun p = (markFrag p.mark_length, .error .typeError) ∧
      renderRun p .widebox = (markFrag p.mark_length, some .typeError) ∧
      (p.h ≤ p.y →
        renderRun p .automatic = (markFrag p.mark_length, some .typeError)) := by
  refine ⟨wideboxRun_eq p, ?_, ?_⟩
  · simp [renderRun, resolveDesign, wideboxRun_eq]
  · intro hy
    simp [renderRun, resolveDesign, if_neg (not_lt.mpr hy), wideboxRun_eq]

/-- C2 (witness): the amended statement instantiated at `p0`, whose height 30
does not exceed its length 150, discharging the inner hypothesis of the
`automatic` conjunct there. -/
theorem claim2_witness :
    wideboxRun p0 = (markFrag p0.mark_length, .error .typeError) ∧
      renderRun p0 .widebox = (markFrag p0.mark_length, some .typeError) ∧
      p0.h ≤ p0.y ∧
      renderRun p0 .automatic = (markFrag p0.mark_length, some .typeError) :=
  ⟨(claim2_amended p0).1, (claim2_amended p0).2.1, by norm_num [p0],
   (claim2_amended p0).2.2 (by norm_num [p0])⟩

/-! ### Claim C3 -/

/-- C3: `render` resolves design `automatic` to `tuckbox` exactly when
`height > length` (strict), to `widebox` otherwise — in particular at
`height == length` it resolves to `widebox` — and the resolution occurs once,
before generation: dispatch under `automatic` coincides with dispatch under
the already-resolved concrete design. -/
theorem claim3_theorem :
    (∀ h y : ℝ,
        resolveDesign .automatic h y =
          if h > y then Design.tuckbox else Design.widebox) ∧
      (∀ y : ℝ, resolveDesign .automatic y y = Design.widebox) ∧
      (∀ p : Params,
        renderRun p .automatic =
          renderRun p (if p.h > p.y then Design.tuckbox else Design.widebox)) := by
  refine ⟨fun h y => by simp [resolveDesign], fun y => by simp [resolveDesign], ?_⟩
  intro p
  by_cases hp : p.h > p.y <;> simp [renderRun, resolveDesign, hp]

/-! ### Claim C4 -/

/-- C4 (counterexample): with `mark_length = 0` the `mark` fragment is not
empty — `mark` performs no test on the length and strokes its six primitives
unconditionally — refuting "mark with length 0 returns an empty fragment". -/
theorem claim4_counterexample :
    markFrag (0 : ℝ) ≠ ([] : List Prim) ∧ (markFrag (0 : ℝ)).length = 6 := by
  constructor <;> simp [markFrag]

/-- C4 (amended): for every `mark_length` — zero included — `mark` strokes
exactly the six primitives `[0, -90, L, 180, L, -90]`, whose net turtle effect
is zero displacement and zero net rotation, and returns `None` rather than a
fragment. -/
theorem claim4_amended (ml : ℝ) (s : TState) (p : Params) :
    markFrag ml =
        [.line 0, .turn (-90), .line ml, .turn 180, .line ml, .turn (-90)] ∧
      (markFrag ml).length = 6 ∧
      run s (markFrag ml) = s ∧
      netRot (markFrag ml) = 0 ∧
      (markProc p).2 = PVal.vNone := by
  refine ⟨rfl, rfl, run_markFrag s ml, ?_, rfl⟩
  simp only [netRot, markFrag, turnAngle, List.map_cons, List.map_nil,
    List.sum_cons, List.sum_nil]
  norm_num

/-! ### Claim C5 -/

/-- C5: for every height and width with `width > 2*height*tan(tab_angle)`,
`tab_description` returns the trapezoid fragment whose two slanted sides have
length exactly `height / cos(tab_angle)`, whose top edge has length exactly
`width - 2*height*tan(tab_angle)`, and whose four turn angles sum to zero. -/
theorem claim5_theorem (t H W : ℝ) (hw : W > 2 * H * Real.tan t) :
    tab_description t H W =
        [.line 0, .turn (degOf t - 90),
         .line (H / Real.cos t), .turn (90 - degOf t),
         .line (W - 2 * H * Real.tan t), .turn (90 - degOf t),
         .line (H / Real.cos t), .turn (degOf t - 90)] ∧
      lineLengths (tab_description t H W) =
        [0, H / Real.cos t, W - 2 * H * Real.tan t, H / Real.cos t] ∧
      netRot (tab_description t H W) = 0 := by
  refine ⟨rfl, ?_, ?_⟩
  · simp [lineLengths, tab_description]
  · simp only [netRot, tab_description, turnAngle, List.map_cons, List.map_nil,
      List.sum_cons, List.sum_nil]
    ring

/-- C5 (witness): the theorem instantiated at tab angle 0, height 1,
width 3. -/
theorem claim5_witness :
    (3 : ℝ) > 2 * 1 * Real.tan 0 ∧
      (tab_description 0 1 3 =
          [.line 0, .turn (degOf 0 - 90),
           .line (1 / Real.cos 0), .turn (90 - degOf 0),
           .line (3 - 2 * 1 * Real.tan 0), .turn (90 - degOf 0),
           .line (1 / Real.cos 0), .turn (degOf 0 - 90)] ∧
        lineLengths (tab_description 0 1 3) =
          [0, 1 / Real.cos 0, 3 - 2 * 1 * Real.tan 0, 1 / Real.cos 0] ∧
        netRot (tab_description 0 1 3) = 0) :=
  ⟨by norm_num [Real.tan_zero], claim5_theorem 0 1 3 (by norm_num [Real.tan_zero])⟩

/-! ### Claim C6 -/

/-- C6 (code defect, evaluated at the failing input `p0`, i.e. width 100,
length 150, height 30): the `half_side` assignment of `widebox` aborts with
`TypeError` as soon as `mark()`'s `None` is concatenated with `[0, 90]`, so no
half-side fragment — and a fortiori no second half equal to its reversal — is
ever assembled; the source's return expression, whose last operand is
literally `list(reversed(half_side))`, is never reached. -/
theorem claim6_theorem :
    half_sideRun p0 = (markFrag p0.mark_length, .error .typeError) ∧
      wideboxRun p0 = (markFrag p0.mark_length, .error .typeError) := by
  constructor
  · simp [half_sideRun, chainGo, markProc, pureList, pyAdd]
  · exact wideboxRun_eq p0

/-! ### Claim C7 -/

/-- C7 (counterexample): at concrete arguments (parameters `p0`, length 20,
lid-cut length 5), `ear_description(..., reverse=True)` differs from the
literal sequence reversal of the fragment returned with `reverse=False`: the
code reverses only the 13-primitive core `path` and appends the trailing
zero anchor afterwards, so the reversed call starts with the start-margin
line while the reversal of the full returned fragment starts with the
anchor. -/
theorem claim7_counterexample :
    ear_description p0 20 5 true ≠ (ear_description p0 20 5 false).reverse := by
  simp [ear_description, ear_path, p0]

/-- C7 (amended): `ear_description(..., reverse=True)` returns the literal
primitive-order reversal of the core `path` with the trailing zero-length
anchor appended after reversal: dropping the final anchor from both returned
fragments, the reversed fragment is exactly the sequence reversal of the
forward one. -/
theorem claim7_amended (p : Params) (L lcl : ℝ) :
    ear_description p L lcl false = ear_path p L lcl ++ [.turn 0] ∧
      ear_description p L lcl true = (ear_path p L lcl).reverse ++ [.turn 0] ∧
      (ear_description p L lcl true).dropLast =
        ((ear_description p L lcl false).dropLast).reverse := by
  refine ⟨rfl, rfl, ?_⟩
  simp [ear_description]

/-! ### Claim C8 -/

/-- C8: `lid_cut` emits a perpendicular slit whose first straight segment is
`length + thickness` and second is `length` when `reverse=False`, and first
`length`, second `length + thickness` when `reverse=True`: exactly one end
receives the thickness compensation and the end switches with the flag; the
net cursor effect in both cases is a pure perpendicular offset of
`thickness`. -/
theorem claim8_theorem (t l : ℝ) (s : TState) :
    lid_cut t l false =
        [.line 0, .turn 90, .line (l + t), .line 0, .turn (-180), .line l,
         .turn 90] ∧
      lid_cut t l true =
        [.line 0, .turn 90, .line l, .line 0, .turn (-180), .line (l + t),
         .turn 90] ∧
      lineLengths (lid_cut t l false) = [0, l + t, 0, l] ∧
      lineLengths (lid_cut t l true) = [0, l, 0, l + t] ∧
      run s (lid_cut t l false) =
        ⟨s.px - t * diry s.hdg, s.py + t * dirx s.hdg, s.hdg⟩ ∧
      run s (lid_cut t l true) =
        ⟨s.px + t * diry s.hdg, s.py - t * dirx s.hdg, s.hdg⟩ :=
  ⟨by simp [lid_cut], by simp [lid_cut], by simp [lineLengths, lid_cut],
   by simp [lineLengths, lid_cut], run_lid_cut_false s t l,
   run_lid_cut_true s t l⟩

/-! ### Claim C9 -/

/-- C9: for `diameter <= width`, `side_with_finger_hole` is a straight edge of
length `(width-diameter)/2`, a 180-degree arc of radius `diameter/2`, and a
second straight edge of the same length, the straight runs summing to
`width - diameter`; at `diameter == width` every straight run is zero. -/
theorem claim9_theorem (w d : ℝ) (hd : d ≤ w) :
    side_with_finger_hole w d =
        [.line ((w - d) / 2), .turn 90, .line 0, .arc (-180) (d / 2), .line 0,
         .turn 90, .line ((w - d) / 2), .turn 0] ∧
      lineLengths (side_with_finger_hole w d) =
        [(w - d) / 2, 0, 0, (w - d) / 2] ∧
      (lineLengths (side_with_finger_hole w d)).sum = w - d ∧
      (d = w → lineLengths (side_with_finger_hole w d) = [0, 0, 0, 0]) := by
  refine ⟨rfl, by simp [lineLengths, side_with_finger_hole], ?_, ?_⟩
  · simp [lineLengths, side_with_finger_hole]
  · intro h
    subst h
    simp [lineLengths, side_with_finger_hole]

/-- C9 (witness): the theorem instantiated at the boundary `width = diameter
= 2`. -/
theorem claim9_witness :
    (2 : ℝ) ≤ 2 ∧
      (side_with_finger_hole 2 2 =
          [.line ((2 - 2) / 2), .turn 90, .line 0, .arc (-180) (2 / 2),
           .line 0, .turn 90, .line ((2 - 2) / 2), .turn 0] ∧
        lineLengths (side_with_finger_hole 2 2) =
          [(2 - 2) / 2, 0, 0, (2 - 2) / 2] ∧
        (lineLengths (side_with_finger_hole 2 2)).sum = 2 - 2 ∧
        ((2 : ℝ) = 2 → lineLengths (side_with_finger_hole 2 2) = [0, 0, 0, 0])) :=
  ⟨le_refl 2, claim9_theorem 2 2 (le_refl 2)⟩

/-! ### Claim C10 -/

/-- C10: `mark` overwrites the ambient stroke color with BLACK and does not
restore it — after any `mark` call the drawing state's color is BLACK, and in
particular a prior non-BLACK state is not preserved — whereas `crease` makes
its ETCHING color change inside a saved context, so the drawing state after
`crease` equals the state before it while the crease stroke itself is drawn in
ETCHING. -/
theorem claim10_theorem (s : DrawState) (ml len : ℝ) :
    (markDraw ml s).1.color = SColor.black ∧
      (markDraw ml s).2.1 = SColor.black ∧
      (markDraw ml ⟨SColor.etching⟩).1 ≠ ⟨SColor.etching⟩ ∧
      (creaseDraw len s).1 = s ∧
      (creaseDraw len s).2.1 = SColor.etching :=
  ⟨rfl, rfl, by simp [markDraw, set_source_color], rfl, rfl⟩
